import Mathlib

/-!
Shallow embedding of the tickify-api backend (Rust, axum + sqlx).

The relational store is modelled as a list of rows per table; each SQL
statement of the source becomes a pure transformation of that list, and
each executed UPDATE statement is additionally recorded in a write trace,
so that "performs zero writes" is directly statable.  `chrono::Utc::now()`
is modelled by an explicit `now : Nat` parameter, `uuid` values by `Nat`,
and the argon2 / jsonwebtoken primitives symbolically (a stored hash
remembers the password and salt it was built from; a token signature is
the pair of the signing secret and the signed claims).
-/

namespace Tickify

abbrev Uuid := Nat

abbrev Timestamp := Nat

/-- Enum `TicketStatus` from `src/models/ticket.rs` (enum ticket_status). -/
inductive TicketStatus where
  | Open
  | InProgress
  | Closed
  | Reopened
  | Paused
  | Cancelled
deriving DecidableEq

/-- Modelled from the spec: the user `role` enum (`User`, `Moderator`, `Admin`;
default `User`).  The enum's declaration is referenced by
`src/database/repositories/user_repository.rs` and `src/controllers/auth.rs`
but its defining source file is not part of the snapshot. -/
inductive Role where
  | User
  | Moderator
  | Admin
deriving DecidableEq

/-- Modelled from the spec: the user account `status` enum
(`Active`/`Inactive`; only `Active` users may authenticate).  Referenced by
`src/controllers/auth.rs` and `src/models/auth/access.rs` but declared in a
file missing from the snapshot. -/
inductive Status where
  | Active
  | Inactive
deriving DecidableEq

/-- Enum `AuthError` from `src/errors/auth_error.rs`. -/
inductive AuthError where
  | MissingToken
  | EmptyHeader
  | InvalidToken
deriving DecidableEq

/-- Enum `ApiError` from `src/errors/api_error.rs`.  Variants that wrap a foreign
error value carry its display string. -/
inductive ApiError where
  | DatabaseError (msg : String)
  | ValidationError (msg : String)
  | EncryptionError (msg : String)
  | JWTError (msg : String)
  | ExportError (msg : String)
  | ServerError (msg : String)
  | AuthError (e : AuthError)
  | ConfigError (msg : String)
  | NotFound
  | AlreadyExists
  | NotModified
  | Unauthorized
  | WrongPassword
deriving DecidableEq

/-- The HTTP status code each `ApiError` variant is mapped to by
`impl IntoResponse for ApiError` in `src/errors/api_error.rs`. -/
def ApiError.statusCode : ApiError → Nat
  | .DatabaseError _ => 500
  | .ValidationError _ => 400
  | .EncryptionError _ => 500
  | .JWTError _ => 500
  | .ExportError _ => 500
  | .ServerError _ => 500
  | .AuthError _ => 401
  | .ConfigError _ => 500
  | .NotFound => 404
  | .Unauthorized => 401
  | .WrongPassword => 400
  | .NotModified => 304
  | .AlreadyExists => 409

/-! ## Password hashing (`src/utils/hashing.rs`)

Argon2 is modelled symbolically: a well-formed stored hash records the
password and the salt it was produced from; `malformed` stands for a string
`PasswordHash::new` rejects. -/

inductive StoredHash where
  | hashed (password salt : String)
  | malformed (raw : String)
deriving DecidableEq

/-- Function `encrypt_password` from `src/utils/hashing.rs`.  The salt drawn from
`OsRng` is an explicit argument; the argon2 internal-failure branch
(`EncryptionError`) cannot fire in the symbolic model. -/
def encrypt_password (password : String) (salt : String) : StoredHash :=
  StoredHash.hashed password salt

/-- Function `verify_password` from `src/utils/hashing.rs`: parsing a malformed hash
and a non-matching password both map to `ApiError::WrongPassword`; a
successful verification is mapped to `Ok(true)`. -/
def verify_password (plain : String) (hash : StoredHash) : Except ApiError Bool :=
  match hash with
  | .malformed _ => .error .WrongPassword
  | .hashed pw _salt =>
    if plain = pw then .ok true else .error .WrongPassword

/-! ## JWT (`src/utils/jwt.rs`, `src/models/jwt.rs`) -/

/-- Struct `Claims` from `src/models/jwt.rs`: the claims `generate_jwt` embeds are
exactly `iat`, `sub`, `exp` — there is no role claim. -/
structure Claims where
  iat : Nat
  sub : String
  exp : Nat
deriving DecidableEq

/-- A signed token.  `alg` models the JOSE header (`Header::default()` is
HS256); the signature is modelled as the pair of the signing secret and the
signed claims (a perfect MAC: it matches exactly when recomputed from the
same secret and the same claims). -/
structure Token where
  alg : String
  claims : Claims
  sig : String × Claims
deriving DecidableEq

def mkSig (secret : String) (c : Claims) : String × Claims := (secret, c)

/-- The two environment variables `generate_jwt` reads
(`JWT_SECRET`, `JWT_EXPIRATION_TIME`). -/
structure Env where
  jwt_secret : Option String
  jwt_expiration_time : Option String
deriving DecidableEq

/-- Model of Rust's `str::parse::<i64>`: optional sign, at least one digit,
all digits, value within the i64 range. -/
def parseI64 (s : String) : Option Int :=
  let core : List Char → Bool → Option Int := fun cs neg =>
    if cs ≠ [] ∧ cs.all (fun c => c.isDigit) then
      let v : Nat := cs.foldl (fun a c => a * 10 + (c.toNat - 48)) 0
      if neg then
        if v ≤ 2 ^ 63 then some (-(v : Int)) else none
      else
        if v < 2 ^ 63 then some (v : Int) else none
    else none
  match s.data with
  | '+' :: cs => core cs false
  | '-' :: cs => core cs true
  | cs => core cs false

/-- Rust's `as usize` cast from `i64`, on a 64-bit target. -/
def usizeCast (x : Int) : Nat := (x % (2 : Int) ^ 64).toNat

/-- Outcome of `generate_jwt`.  The Rust function returns a plain `String`
and aborts via `expect` when configuration is missing or malformed;
`panicked` models that abort.  The `err` constructor is never produced by
the embedded function — it exists so that the spec's "fails with
`ConfigError`" is statable (and refutable) against the code. -/
inductive GenOutcome where
  | token (t : Token)
  | panicked (msg : String)
  | err (e : ApiError)
deriving DecidableEq

def GenOutcome.isErr : GenOutcome → Bool
  | .err _ => true
  | _ => false

/-- Function `generate_jwt` from `src/utils/jwt.rs`.  It reads `JWT_EXPIRATION_TIME`
first (`expect` on absence, `expect` on a failed parse), computes
`exp = (now + expire).timestamp() as usize` and `iat = now`, then reads
`JWT_SECRET` (`expect` on absence) and signs the claims.  The function takes
only the username: no role and no per-call TTL are involved. -/
def generate_jwt (env : Env) (now : Nat) (username : String) : GenOutcome :=
  match env.jwt_expiration_time with
  | none => .panicked "Error reading JWT_EXPIRATION_TIME"
  | some s =>
    match parseI64 s with
    | none => .panicked "Invalid JWT_EXPIRATION_TIME value"
    | some expire =>
      let exp : Nat := usizeCast ((now : Int) + expire)
      let iat : Nat := now
      let claims : Claims := { iat := iat, sub := username, exp := exp }
      match env.jwt_secret with
      | none => .panicked "Error reading JWT_SECRET"
      | some secret => .token { alg := "HS256", claims := claims, sig := mkSig secret claims }

/-- Error kinds of `jsonwebtoken::decode` relevant to this model. -/
inductive JwtError where
  | InvalidAlgorithm
  | InvalidSignature
  | ExpiredSignature
deriving DecidableEq

/-- Model of `jsonwebtoken::decode` with `Validation::default()` (HS256,
`exp` validated against the current time; the library's leeway is abstracted
to zero, matching the spec's "valid iff signature checks out and
`exp > now`").  Used by both `validate_jwt` and `decode_jwt` in
`src/utils/jwt.rs`. -/
def jwtDecode (tok : Token) (secret : String) (now : Nat) : Except JwtError Claims :=
  if tok.alg ≠ "HS256" then .error .InvalidAlgorithm
  else if tok.sig ≠ mkSig secret tok.claims then .error .InvalidSignature
  else if tok.claims.exp ≤ now then .error .ExpiredSignature
  else .ok tok.claims

/-! ## User rows and the user repository
(`src/models/user.rs`, `src/database/repositories/user_repository.rs`)

A `users` table row.  The `role` and `status` columns are bound by the
repository's INSERT/UPDATE statements and read by `src/controllers/auth.rs`;
the struct declaring them is missing from the snapshot (the `User` struct in
`src/models/user.rs` predates them), so the row carries the union of the
columns the SQL statements touch. -/

structure User where
  id : Uuid
  username : String
  email : Option String
  password_hash : StoredHash
  first_name : Option String
  last_name : Option String
  role : Role
  status : Status
  created_at : Timestamp
  updated_at : Timestamp
deriving DecidableEq

/-- The projection selected by the user repository's read queries
(`SELECT id, username, email, first_name, last_name, role, status,
created_at, updated_at FROM users`): the `password_hash` column is not in
the column list. -/
structure UserPublic where
  id : Uuid
  username : String
  email : Option String
  first_name : Option String
  last_name : Option String
  role : Role
  status : Status
  created_at : Timestamp
  updated_at : Timestamp
deriving DecidableEq

def User.toPublic (u : User) : UserPublic :=
  { id := u.id, username := u.username, email := u.email,
    first_name := u.first_name, last_name := u.last_name,
    role := u.role, status := u.status,
    created_at := u.created_at, updated_at := u.updated_at }

abbrev UserDb := List User

/-- Query `WHERE id = $1` with `fetch_optional`: the first matching row. -/
def lookupUser (db : UserDb) (i : Uuid) : Option User :=
  db.find? (fun u => u.id == i)

/-- Query `WHERE username = $1` with `fetch_optional`. -/
def lookupUserByName (db : UserDb) (q : String) : Option User :=
  db.find? (fun u => u.username == q)

/-- Statement `UPDATE users SET ... WHERE id = $1`: rewrite every matching row. -/
def updUserWhere (db : UserDb) (i : Uuid) (g : User → User) : UserDb :=
  db.map (fun u => if u.id = i then g u else u)

/-- Method `User::find_by_id` in `src/models/user.rs` (`SELECT * FROM users WHERE
id = $1`): returns the full row, `password_hash` included. -/
def User.find_by_id (db : UserDb) (i : Uuid) : Option User :=
  lookupUser db i

/-- Method `User::find_all` in `src/models/user.rs` (`SELECT * FROM users`). -/
def User.find_all (db : UserDb) : List User := db

/-- Method `UserRepositoryImpl::find_by_id`: selects only the non-password
columns. -/
def UserRepositoryImpl.find_by_id (db : UserDb) (i : Uuid) : Option UserPublic :=
  (lookupUser db i).map User.toPublic

/-- Method `UserRepositoryImpl::find_all`: selects only the non-password
columns. -/
def UserRepositoryImpl.find_all (db : UserDb) : List UserPublic :=
  db.map User.toPublic

/-- The `find_user_by_id` handler in `src/controllers/user.rs`: built on
`User::find_by_id`; a found row is returned whole (the `User` struct
derives `Serialize` with no field skipped), absence maps to
`ApiError::NotFound`. -/
def find_user_by_id (db : UserDb) (i : Uuid) : Except ApiError User :=
  match User.find_by_id db i with
  | some user => .ok user
  | none => .error .NotFound

/-- The `find_all_users` handler in `src/controllers/user.rs`, built on
`User::find_all`. -/
def find_all_users (db : UserDb) : Except ApiError (List User) :=
  .ok (User.find_all db)

/-- Struct `UpdateUserPayload` as consumed by `UserRepositoryImpl::update`
(`src/database/repositories/user_repository.rs` reads `payload.role` and
`payload.status` in addition to the five fields the struct in
`src/models/user.rs` declares; the row of fields below is the set that
repository actually patches). -/
structure UpdateUserPayload where
  id : Uuid
  username : Option String
  email : Option String
  password : Option String
  role : Option Role
  status : Option Status
  first_name : Option String
  last_name : Option String
deriving DecidableEq

/-- Result of a repository `update`: the returned value, the store after
the statements that did execute, and the trace of executed UPDATE
statements (by column name). -/
structure UpdResult (ρ : Type) where
  outcome : Except ApiError Uuid
  db : List ρ
  writes : List String

/-- One `if let Some(v) = field { UPDATE ...; updated = true; }` block of a
repository `update`, over the running (store, write trace, updated flag)
state. -/
def userFieldStep {α : Type} (name : String) (i : Uuid) (v? : Option α)
    (set : α → User → User) :
    UserDb × List String × Bool → UserDb × List String × Bool
  | (db, ws, u) =>
    match v? with
    | some v => (updUserWhere db i (set v), ws ++ [name], true)
    | none => (db, ws, u)

/-- Method `UserRepositoryImpl::update` from
`src/database/repositories/user_repository.rs`: field-by-field conditional
statements in source order (username, email, password, first_name,
last_name, role, status), then `updated_at` if anything was written, else
`ApiError::NotModified`.  `salt` feeds `encrypt_password`'s `OsRng` draw. -/
def UserRepositoryImpl.update (db : UserDb) (p : UpdateUserPayload)
    (salt : String) (now : Timestamp) : UpdResult User :=
  let st0 : UserDb × List String × Bool := (db, [], false)
  let st1 := userFieldStep "users.username" p.id p.username
    (fun v u => { u with username := v }) st0
  let st2 := userFieldStep "users.email" p.id p.email
    (fun v u => { u with email := some v }) st1
  let st3 := userFieldStep "users.password_hash" p.id p.password
    (fun v u => { u with password_hash := encrypt_password v salt }) st2
  let st4 := userFieldStep "users.first_name" p.id p.first_name
    (fun v u => { u with first_name := some v }) st3
  let st5 := userFieldStep "users.last_name" p.id p.last_name
    (fun v u => { u with last_name := some v }) st4
  let st6 := userFieldStep "users.role" p.id p.role
    (fun v u => { u with role := v }) st5
  let st7 := userFieldStep "users.status" p.id p.status
    (fun v u => { u with status := v }) st6
  if st7.2.2 then
    ⟨.ok p.id, updUserWhere st7.1 p.id (fun u => { u with updated_at := now }),
      st7.2.1 ++ ["users.updated_at"]⟩
  else
    ⟨.error .NotModified, st7.1, st7.2.1⟩

/-! ## Ticket rows and the ticket repository
(`src/models/ticket.rs`, `src/database/repositories/ticket_repository.rs`) -/

/-- The `Ticket` struct from `src/models/ticket.rs` (one `tickets` row). -/
structure Ticket where
  id : Uuid
  title : String
  description : String
  requester : Uuid
  status : TicketStatus
  closed_by : Option Uuid
  solution : Option String
  created_at : Timestamp
  updated_at : Timestamp
  closed_at : Option Timestamp
deriving DecidableEq

abbrev TicketDb := List Ticket

def lookupTicket (db : TicketDb) (i : Uuid) : Option Ticket :=
  db.find? (fun t => t.id == i)

def updTicketWhere (db : TicketDb) (i : Uuid) (g : Ticket → Ticket) : TicketDb :=
  db.map (fun t => if t.id = i then g t else t)

/-- Struct `CreateTicketPayload` from `src/models/ticket.rs` (`requester` is a
username string). -/
structure CreateTicketPayload where
  title : String
  description : String
  requester : String
deriving DecidableEq

/-- Struct `UpdateTicketPayload` from `src/models/ticket.rs`. -/
structure UpdateTicketPayload where
  id : Uuid
  title : Option String
  description : Option String
  requester : Option Uuid
  status : Option TicketStatus
  closed_by : Option Uuid
  solution : Option String
deriving DecidableEq

/-- Method `Ticket::new` from `src/models/ticket.rs`: fresh v7 uuid (the generated
value is the explicit `freshId` argument), `status = Open`, no closer, no
solution, no `closed_at`, both timestamps set to now. -/
def Ticket.new (title description : String) (requester : Uuid)
    (freshId : Uuid) (now : Timestamp) : Ticket :=
  { id := freshId, title := title, description := description,
    requester := requester, status := TicketStatus.Open,
    closed_by := none, solution := none,
    created_at := now, updated_at := now, closed_at := none }

/-- Query `SELECT id FROM users WHERE username = $1 LIMIT 1` with `fetch_one`. -/
def resolveRequester (udb : UserDb) (q : String) : Option Uuid :=
  (lookupUserByName udb q).map (fun u => u.id)

/-- Method `TicketRepositoryImpl::create`: resolve the requester username to an id
(`fetch_one`, so a missing user surfaces as a database error), build the
row with `Ticket::new`, INSERT it. -/
def TicketRepositoryImpl.create (udb : UserDb) (db : TicketDb)
    (p : CreateTicketPayload) (freshId : Uuid) (now : Timestamp) :
    Except ApiError Ticket × TicketDb :=
  match resolveRequester udb p.requester with
  | none => (.error (.DatabaseError "RowNotFound"), db)
  | some requester_id =>
    let new_ticket := Ticket.new p.title p.description requester_id freshId now
    (.ok new_ticket, db ++ [new_ticket])

/-- An `if let Some(v) = field { UPDATE ...; updated = true; }` block of the
ticket repository's `update`. -/
def ticketFieldStep {α : Type} (name : String) (i : Uuid) (v? : Option α)
    (set : α → Ticket → Ticket) :
    TicketDb × List String × Bool → TicketDb × List String × Bool
  | (db, ws, u) =>
    match v? with
    | some v => (updTicketWhere db i (set v), ws ++ [name], true)
    | none => (db, ws, u)

/-- The `status` block of the ticket repository's `update`: read the
previous status (`fetch_optional`), write the new one, and, when the new
status is `Closed` or `Cancelled` and the previous row existed, stamp
`closed_at` under the source's guard
`prev != Closed || prev != Cancelled` (an OR of inequalities). -/
def ticketStatusStep (i : Uuid) (v? : Option TicketStatus) (now : Timestamp) :
    TicketDb × List String × Bool → TicketDb × List String × Bool
  | (db, ws, u) =>
    match v? with
    | some s =>
      let previous := (lookupTicket db i).map (fun t => t.status)
      let db1 := updTicketWhere db i (fun t => { t with status := s })
      if s = TicketStatus.Closed ∨ s = TicketStatus.Cancelled then
        match previous with
        | some prev =>
          if prev ≠ TicketStatus.Closed ∨ prev ≠ TicketStatus.Cancelled then
            (updTicketWhere db1 i (fun t => { t with closed_at := some now }),
              ws ++ ["tickets.status", "tickets.closed_at"], true)
          else (db1, ws ++ ["tickets.status"], true)
        | none => (db1, ws ++ ["tickets.status"], true)
      else (db1, ws ++ ["tickets.status"], true)
    | none => (db, ws, u)

/-- Method `TicketRepositoryImpl::update` from
`src/database/repositories/ticket_repository.rs`: conditional per-field
statements in source order (title, description, requester, status with its
`closed_at` side effect, closed_by, solution), then `updated_at` if
anything was written, else `ApiError::NotModified`. -/
def TicketRepositoryImpl.update (db : TicketDb) (p : UpdateTicketPayload)
    (now : Timestamp) : UpdResult Ticket :=
  let st0 : TicketDb × List String × Bool := (db, [], false)
  let st1 := ticketFieldStep "tickets.title" p.id p.title
    (fun v t => { t with title := v }) st0
  let st2 := ticketFieldStep "tickets.description" p.id p.description
    (fun v t => { t with description := v }) st1
  let st3 := ticketFieldStep "tickets.requester" p.id p.requester
    (fun v t => { t with requester := v }) st2
  let st4 := ticketStatusStep p.id p.status now st3
  let st5 := ticketFieldStep "tickets.closed_by" p.id p.closed_by
    (fun v t => { t with closed_by := some v }) st4
  let st6 := ticketFieldStep "tickets.solution" p.id p.solution
    (fun v t => { t with solution := some v }) st5
  if st6.2.2 then
    ⟨.ok p.id, updTicketWhere st6.1 p.id (fun t => { t with updated_at := now }),
      st6.2.1 ++ ["tickets.updated_at"]⟩
  else
    ⟨.error .NotModified, st6.1, st6.2.1⟩

/-! ## Login (`src/controllers/auth.rs`) -/

/-- Struct `LoginPayload` from `src/models/auth.rs`. -/
structure LoginPayload where
  username : String
  password : String
deriving DecidableEq

/-- Outcome of the `login` handler.  `success` carries the HTTP status the
handler responds with (`StatusCode::OK`) and the issued token; `failure`
carries the `ApiError` the `?` operator propagated (mapped to a status by
`ApiError.statusCode`); `panicked` models an abort inside `generate_jwt`. -/
inductive LoginOutcome where
  | success (status : Nat) (tok : Token)
  | failure (e : ApiError)
  | panicked (msg : String)
deriving DecidableEq

def LoginOutcome.httpStatus : LoginOutcome → Option Nat
  | .success s _ => some s
  | .failure e => some e.statusCode
  | .panicked _ => none

/-- The `login` handler from `src/controllers/auth.rs`: select the user's
status by username (absence → `NotFound`, non-Active → `Unauthorized`),
select and verify the password hash (`verify_password`'s error propagates),
the dead `if !is_password_correct` branch, select the role, then issue the
token.  The handler passes the role string to `generate_jwt`, but the
issuance function in `src/utils/jwt.rs` takes only the username. -/
def login (db : UserDb) (env : Env) (now : Nat) (payload : LoginPayload) :
    LoginOutcome :=
  match (lookupUserByName db payload.username).map (fun u => u.status) with
  | none => .failure .NotFound
  | some user_status =>
    if user_status ≠ Status.Active then .failure .Unauthorized
    else
      match (lookupUserByName db payload.username).map (fun u => u.password_hash) with
      | none => .failure .NotFound
      | some password_hash =>
        match verify_password payload.password password_hash with
        | .error e => .failure e
        | .ok is_password_correct =>
          if !is_password_correct then .failure .Unauthorized
          else
            match (lookupUserByName db payload.username).map (fun u => u.role) with
            | none => .failure .NotFound
            | some _user_role =>
              match generate_jwt env now payload.username with
              | .token t => .success 200 t
              | .panicked msg => .panicked msg
              | .err e => .failure e

/-! ## Authorization middleware (`src/middlewares/authorization.rs`) -/

/-- Word-splitting model of Rust's `str::split_whitespace`: maximal runs of
non-whitespace characters, empty pieces discarded (`Char.isWhitespace`
standing in for `char::is_whitespace`).  `cur` accumulates the current word
reversed. -/
def wsWordsGo (cur : List Char) : List Char → List (List Char)
  | [] => if cur.isEmpty then [] else [cur.reverse]
  | c :: rest =>
    if c.isWhitespace then
      if cur.isEmpty then wsWordsGo [] rest
      else cur.reverse :: wsWordsGo [] rest
    else wsWordsGo (c :: cur) rest

def split_whitespace (s : String) : List String :=
  (wsWordsGo [] s.data).map (fun w => String.mk w)

/-- Outcome of the `authorize` middleware, up to the point the claim is
about: returning early with an `ApiError`, panicking on `token.unwrap()`,
or proceeding into the handler with the decoded claims (the subsequent
current-user fetch is beyond the claim). -/
inductive MWOutcome where
  | panicked
  | errOut (e : ApiError)
  | proceed (claims : Claims)
deriving DecidableEq

/-- The `authorize` middleware from `src/middlewares/authorization.rs`:
a missing `Authorization` header → `AuthError::MissingToken`; otherwise the
header is split on whitespace, `(_bearer, token) = (next(), next())`, and
`token.unwrap()` is called with no `None` check — fewer than two parts
panic.  `decode` abstracts `decode_jwt` (its failure →
`AuthError::InvalidToken`); the header value is modelled as a string, so the
source's non-UTF8 `EmptyHeader` rejection has no counterpart here. -/
def authorize (decode : String → Option Claims) (header : Option String) :
    MWOutcome :=
  match header with
  | none => .errOut (.AuthError .MissingToken)
  | some h =>
    match (split_whitespace h)[1]? with
    | none => .panicked
    | some token =>
      match decode token with
      | none => .errOut (.AuthError .InvalidToken)
      | some token_data => .proceed token_data

/-! ## Derived forms used by the theorems -/

/-- Whether at least one optional field of a ticket patch is supplied
(the final value of the repository's `updated` flag). -/
def anySupplied (p : UpdateTicketPayload) : Bool :=
  p.title.isSome || p.description.isSome || p.requester.isSome ||
  p.status.isSome || p.closed_by.isSome || p.solution.isSome

/-- The row `TicketRepositoryImpl::update` leaves behind for the patched id,
as a function of the previous row (for an existing ticket): supplied fields
overwritten, absent fields untouched, `closed_at` stamped whenever the new
status is terminal (the source's `prev != Closed || prev != Cancelled`
guard holds for every `prev`), `updated_at` stamped when anything was
supplied. -/
def ticketApplyPatch (r : Ticket) (p : UpdateTicketPayload) (now : Timestamp) :
    Ticket :=
  { r with
    title := p.title.getD r.title,
    description := p.description.getD r.description,
    requester := p.requester.getD r.requester,
    status := p.status.getD r.status,
    closed_by := (match p.closed_by with | some v => some v | none => r.closed_by),
    solution := (match p.solution with | some v => some v | none => r.solution),
    closed_at := (match p.status with
      | some s =>
        if s = TicketStatus.Closed ∨ s = TicketStatus.Cancelled
        then some now else r.closed_at
      | none => r.closed_at),
    updated_at := if anySupplied p then now else r.updated_at }

/-- The trace of UPDATE statements `TicketRepositoryImpl::update` executes
on an existing ticket. -/
def ticketWritesList (p : UpdateTicketPayload) : List String :=
  (if p.title.isSome then ["tickets.title"] else []) ++
  (if p.description.isSome then ["tickets.description"] else []) ++
  (if p.requester.isSome then ["tickets.requester"] else []) ++
  (match p.status with
   | some s => "tickets.status" ::
       (if s = TicketStatus.Closed ∨ s = TicketStatus.Cancelled
        then ["tickets.closed_at"] else [])
   | none => []) ++
  (if p.closed_by.isSome then ["tickets.closed_by"] else []) ++
  (if p.solution.isSome then ["tickets.solution"] else []) ++
  (if anySupplied p then ["tickets.updated_at"] else [])

/-- The row transformation performed by one conditional field block of the
ticket update. -/
def applyOpt {α : Type} (v? : Option α) (set : α → Ticket → Ticket)
    (r : Ticket) : Ticket :=
  match v? with
  | some v => set v r
  | none => r

/-- The row transformation performed by the status block of the ticket
update (for a row that exists, so the previous-status read succeeds). -/
def applyStatusOpt (v? : Option TicketStatus) (now : Timestamp) (r : Ticket) :
    Ticket :=
  match v? with
  | some s =>
    { r with
      status := s,
      closed_at := if s = TicketStatus.Closed ∨ s = TicketStatus.Cancelled
                   then some now else r.closed_at }
  | none => r

/-- Whether at least one optional field of a user patch is supplied, in the
order the repository tests them. -/
def anySuppliedUser (p : UpdateUserPayload) : Bool :=
  p.username.isSome || p.email.isSome || p.password.isSome ||
  p.first_name.isSome || p.last_name.isSome || p.role.isSome || p.status.isSome

/-- The row `UserRepositoryImpl::update` leaves behind for the patched id,
as a function of the previous row. -/
def userApplyPatch (r : User) (p : UpdateUserPayload) (salt : String)
    (now : Timestamp) : User :=
  { r with
    username := p.username.getD r.username,
    email := (match p.email with | some v => some v | none => r.email),
    password_hash := (match p.password with
      | some v => encrypt_password v salt
      | none => r.password_hash),
    first_name := (match p.first_name with
      | some v => some v
      | none => r.first_name),
    last_name := (match p.last_name with
      | some v => some v
      | none => r.last_name),
    role := p.role.getD r.role,
    status := p.status.getD r.status,
    updated_at := if anySuppliedUser p then now else r.updated_at }

/-- The trace of UPDATE statements `UserRepositoryImpl::update` executes. -/
def userWritesList (p : UpdateUserPayload) : List String :=
  (if p.username.isSome then ["users.username"] else []) ++
  (if p.email.isSome then ["users.email"] else []) ++
  (if p.password.isSome then ["users.password_hash"] else []) ++
  (if p.first_name.isSome then ["users.first_name"] else []) ++
  (if p.last_name.isSome then ["users.last_name"] else []) ++
  (if p.role.isSome then ["users.role"] else []) ++
  (if p.status.isSome then ["users.status"] else []) ++
  (if anySuppliedUser p then ["users.updated_at"] else [])

/-- The row transformation performed by one conditional field block of the
user update. -/
def applyOptU {α : Type} (v? : Option α) (set : α → User → User)
    (r : User) : User :=
  match v? with
  | some v => set v r
  | none => r

theorem lookupTicket_cons (a : Ticket) (l : TicketDb) (i : Uuid) :
    lookupTicket (a :: l) i
      = if a.id = i then some a else lookupTicket l i := by
  by_cases h : a.id = i <;> simp [lookupTicket, List.find?_cons, h]

theorem lookupTicket_updTicketWhere (db : TicketDb) (i : Uuid)
    (g : Ticket → Ticket) (hpres : ∀ t, (g t).id = t.id) :
    lookupTicket (updTicketWhere db i g) i = (lookupTicket db i).map g := by
  induction db with
  | nil => rfl
  | cons a l ih =>
    by_cases h : a.id = i
    · have hgid : (g a).id = i := by rw [hpres, h]
      simp [updTicketWhere, lookupTicket_cons, h, hgid]
    · simpa [updTicketWhere, lookupTicket_cons, h] using ih

theorem lookup_set_title (db : TicketDb) (i : Uuid) (v : String) :
    lookupTicket (updTicketWhere db i (fun t => { t with title := v })) i
      = (lookupTicket db i).map (fun t => { t with title := v }) :=
  lookupTicket_updTicketWhere db i _ (fun _ => rfl)

theorem lookup_set_description (db : TicketDb) (i : Uuid) (v : String) :
    lookupTicket (updTicketWhere db i (fun t => { t with description := v })) i
      = (lookupTicket db i).map (fun t => { t with description := v }) :=
  lookupTicket_updTicketWhere db i _ (fun _ => rfl)

theorem lookup_set_requester (db : TicketDb) (i : Uuid) (v : Uuid) :
    lookupTicket (updTicketWhere db i (fun t => { t with requester := v })) i
      = (lookupTicket db i).map (fun t => { t with requester := v }) :=
  lookupTicket_updTicketWhere db i _ (fun _ => rfl)

theorem lookup_set_status (db : TicketDb) (i : Uuid) (v : TicketStatus) :
    lookupTicket (updTicketWhere db i (fun t => { t with status := v })) i
      = (lookupTicket db i).map (fun t => { t with status := v }) :=
  lookupTicket_updTicketWhere db i _ (fun _ => rfl)

theorem lookup_set_closed_at (db : TicketDb) (i : Uuid) (v : Option Timestamp) :
    lookupTicket (updTicketWhere db i (fun t => { t with closed_at := v })) i
      = (lookupTicket db i).map (fun t => { t with closed_at := v }) :=
  lookupTicket_updTicketWhere db i _ (fun _ => rfl)

theorem lookup_set_closed_by (db : TicketDb) (i : Uuid) (v : Option Uuid) :
    lookupTicket (updTicketWhere db i (fun t => { t with closed_by := v })) i
      = (lookupTicket db i).map (fun t => { t with closed_by := v }) :=
  lookupTicket_updTicketWhere db i _ (fun _ => rfl)

theorem lookup_set_solution (db : TicketDb) (i : Uuid) (v : Option String) :
    lookupTicket (updTicketWhere db i (fun t => { t with solution := v })) i
      = (lookupTicket db i).map (fun t => { t with solution := v }) :=
  lookupTicket_updTicketWhere db i _ (fun _ => rfl)

theorem lookup_set_updated_at (db : TicketDb) (i : Uuid) (v : Timestamp) :
    lookupTicket (updTicketWhere db i (fun t => { t with updated_at := v })) i
      = (lookupTicket db i).map (fun t => { t with updated_at := v }) :=
  lookupTicket_updTicketWhere db i _ (fun _ => rfl)

/-- The source's `closed_at` guard (`prev != Closed || prev != Cancelled`)
holds for every previous status. -/
theorem ticketStatus_guard (st : TicketStatus) :
    st ≠ TicketStatus.Closed ∨ st ≠ TicketStatus.Cancelled := by
  cases st <;> simp

theorem ticketFieldStep_fst_lookup {α : Type} (name : String) (i : Uuid)
    (v? : Option α) (set : α → Ticket → Ticket)
    (hpres : ∀ v t, (set v t).id = t.id)
    (st : TicketDb × List String × Bool) (r : Ticket)
    (hr : lookupTicket st.1 i = some r) :
    lookupTicket (ticketFieldStep name i v? set st).1 i
      = some (applyOpt v? set r) := by
  obtain ⟨db, ws, u⟩ := st
  cases v? with
  | none => exact hr
  | some v =>
    simp only [ticketFieldStep, applyOpt]
    rw [lookupTicket_updTicketWhere _ _ _ (hpres v), hr]
    rfl

theorem ticketFieldStep_writes {α : Type} (name : String) (i : Uuid)
    (v? : Option α) (set : α → Ticket → Ticket)
    (st : TicketDb × List String × Bool) :
    (ticketFieldStep name i v? set st).2.1
      = st.2.1 ++ (if v?.isSome then [name] else []) := by
  obtain ⟨db, ws, u⟩ := st
  cases v? <;> simp [ticketFieldStep]

theorem ticketFieldStep_flag {α : Type} (name : String) (i : Uuid)
    (v? : Option α) (set : α → Ticket → Ticket)
    (st : TicketDb × List String × Bool) :
    (ticketFieldStep name i v? set st).2.2 = (st.2.2 || v?.isSome) := by
  obtain ⟨db, ws, u⟩ := st
  cases v? <;> simp [ticketFieldStep]

theorem ticketStatusStep_fst_lookup (i : Uuid) (v? : Option TicketStatus)
    (now : Timestamp) (st : TicketDb × List String × Bool) (r : Ticket)
    (hr : lookupTicket st.1 i = some r) :
    lookupTicket (ticketStatusStep i v? now st).1 i
      = some (applyStatusOpt v? now r) := by
  obtain ⟨db, ws, u⟩ := st
  cases v? with
  | none => exact hr
  | some s =>
    have hdb : lookupTicket db i = some r := hr
    by_cases hterm : s = TicketStatus.Closed ∨ s = TicketStatus.Cancelled
    · simp only [ticketStatusStep, hdb, Option.map_some', if_pos hterm]
      rw [if_pos (ticketStatus_guard r.status)]
      rw [lookup_set_closed_at, lookup_set_status, hdb]
      simp [applyStatusOpt, hterm]
    · simp only [ticketStatusStep, hdb, Option.map_some', if_neg hterm]
      rw [lookup_set_status, hdb]
      simp [applyStatusOpt, hterm]

theorem ticketStatusStep_writes (i : Uuid) (v? : Option TicketStatus)
    (now : Timestamp) (st : TicketDb × List String × Bool) (r : Ticket)
    (hr : lookupTicket st.1 i = some r) :
    (ticketStatusStep i v? now st).2.1
      = st.2.1 ++ (match v? with
          | some s => "tickets.status" ::
              (if s = TicketStatus.Closed ∨ s = TicketStatus.Cancelled
               then ["tickets.closed_at"] else [])
          | none => []) := by
  obtain ⟨db, ws, u⟩ := st
  cases v? with
  | none => simp [ticketStatusStep]
  | some s =>
    have hdb : lookupTicket db i = some r := hr
    by_cases hterm : s = TicketStatus.Closed ∨ s = TicketStatus.Cancelled
    · simp only [ticketStatusStep, hdb, Option.map_some', if_pos hterm]
      rw [if_pos (ticketStatus_guard r.status)]
    · simp only [ticketStatusStep, hdb, Option.map_some', if_neg hterm]

theorem ticketStatusStep_flag (i : Uuid) (v? : Option TicketStatus)
    (now : Timestamp) (st : TicketDb × List String × Bool) :
    (ticketStatusStep i v? now st).2.2 = (st.2.2 || v?.isSome) := by
  obtain ⟨db, ws, u⟩ := st
  cases v? with
  | none => simp [ticketStatusStep]
  | some s =>
    rcases hprev : lookupTicket db i with _ | r0
    · by_cases hterm : s = TicketStatus.Closed ∨ s = TicketStatus.Cancelled <;>
        simp [ticketStatusStep, hprev, hterm]
    · by_cases hterm : s = TicketStatus.Closed ∨ s = TicketStatus.Cancelled
      · simp [ticketStatusStep, hprev, hterm,
          if_pos (ticketStatus_guard r0.status)]
      · simp [ticketStatusStep, hprev, hterm]

theorem applyOpt_title (v? : Option String) (x : Ticket) :
    applyOpt v? (fun v t => { t with title := v }) x
      = { x with title := v?.getD x.title } := by
  cases v? <;> rfl

theorem applyOpt_description (v? : Option String) (x : Ticket) :
    applyOpt v? (fun v t => { t with description := v }) x
      = { x with description := v?.getD x.description } := by
  cases v? <;> rfl

theorem applyOpt_requester (v? : Option Uuid) (x : Ticket) :
    applyOpt v? (fun v t => { t with requester := v }) x
      = { x with requester := v?.getD x.requester } := by
  cases v? <;> rfl

theorem applyOpt_closed_by (v? : Option Uuid) (x : Ticket) :
    applyOpt v? (fun v t => { t with closed_by := some v }) x
      = { x with closed_by :=
            (match v? with | some v => some v | none => x.closed_by) } := by
  cases v? <;> rfl

theorem applyOpt_solution (v? : Option String) (x : Ticket) :
    applyOpt v? (fun v t => { t with solution := some v }) x
      = { x with solution :=
            (match v? with | some v => some v | none => x.solution) } := by
  cases v? <;> rfl

theorem applyStatusOpt_nf (v? : Option TicketStatus) (now : Timestamp)
    (x : Ticket) :
    applyStatusOpt v? now x
      = { x with
          status := v?.getD x.status,
          closed_at := (match v? with
            | some s =>
              if s = TicketStatus.Closed ∨ s = TicketStatus.Cancelled
              then some now else x.closed_at
            | none => x.closed_at) } := by
  cases v? <;> rfl

/-- Full characterization of `TicketRepositoryImpl::update` on a store that
holds a row for the patched id: the returned value, the row left behind,
and the executed statements. -/
theorem ticket_update_char (db : TicketDb) (p : UpdateTicketPayload)
    (now : Timestamp) (r : Ticket) (hr : lookupTicket db p.id = some r) :
    (TicketRepositoryImpl.update db p now).outcome
        = (if anySupplied p then .ok p.id else .error .NotModified) ∧
    lookupTicket (TicketRepositoryImpl.update db p now).db p.id
        = some (ticketApplyPatch r p now) ∧
    (TicketRepositoryImpl.update db p now).writes = ticketWritesList p := by
  obtain ⟨pid, pt, pd, pr, ps, pcb, psol⟩ := p
  dsimp only at hr ⊢
  have h0 : lookupTicket ((db, ([] : List String), false) :
      TicketDb × List String × Bool).1 pid = some r := hr
  have h1 := ticketFieldStep_fst_lookup "tickets.title" pid pt
    (fun v t => { t with title := v }) (fun _ _ => rfl) _ _ h0
  have h2 := ticketFieldStep_fst_lookup "tickets.description" pid pd
    (fun v t => { t with description := v }) (fun _ _ => rfl) _ _ h1
  have h3 := ticketFieldStep_fst_lookup "tickets.requester" pid pr
    (fun v t => { t with requester := v }) (fun _ _ => rfl) _ _ h2
  have h4 := ticketStatusStep_fst_lookup pid ps now _ _ h3
  have h5 := ticketFieldStep_fst_lookup "tickets.closed_by" pid pcb
    (fun v t => { t with closed_by := some v }) (fun _ _ => rfl) _ _ h4
  have h6 := ticketFieldStep_fst_lookup "tickets.solution" pid psol
    (fun v t => { t with solution := some v }) (fun _ _ => rfl) _ _ h5
  have w4 := ticketStatusStep_writes pid ps now _ _ h3
  have f6 : (ticketFieldStep "tickets.solution" pid psol
      (fun v t => { t with solution := some v })
      (ticketFieldStep "tickets.closed_by" pid pcb
        (fun v t => { t with closed_by := some v })
        (ticketStatusStep pid ps now
          (ticketFieldStep "tickets.requester" pid pr
            (fun v t => { t with requester := v })
            (ticketFieldStep "tickets.description" pid pd
              (fun v t => { t with description := v })
              (ticketFieldStep "tickets.title" pid pt
                (fun v t => { t with title := v })
                (db, [], false))))))).2.2
      = anySupplied ⟨pid, pt, pd, pr, ps, pcb, psol⟩ := by
    simp only [ticketFieldStep_flag, ticketStatusStep_flag, anySupplied,
      Bool.false_or]
  simp only [TicketRepositoryImpl.update]
  refine ⟨?_, ?_, ?_⟩
  · rw [apply_ite (fun x : UpdResult Ticket => x.outcome), f6]
  · rw [apply_ite (fun x : UpdResult Ticket => x.db), f6,
      apply_ite (fun x : TicketDb => lookupTicket x pid)]
    by_cases hc : anySupplied ⟨pid, pt, pd, pr, ps, pcb, psol⟩ = true
    · rw [if_pos hc, lookup_set_updated_at, h6]
      simp only [Option.map_some', ticketApplyPatch, applyOpt_title,
        applyOpt_description, applyOpt_requester, applyStatusOpt_nf,
        applyOpt_closed_by, applyOpt_solution, hc, if_true]
    · rw [if_neg hc, h6]
      simp only [Bool.not_eq_true] at hc
      simp only [ticketApplyPatch, applyOpt_title, applyOpt_description,
        applyOpt_requester, applyStatusOpt_nf, applyOpt_closed_by,
        applyOpt_solution, hc, if_false, Bool.false_eq_true]
  · rw [apply_ite (fun x : UpdResult Ticket => x.writes), f6]
    simp only [ticketFieldStep_writes, w4, ticketWritesList, anySupplied,
      List.nil_append, List.append_assoc]
    by_cases hc : anySupplied ⟨pid, pt, pd, pr, ps, pcb, psol⟩ = true <;>
      simp_all [anySupplied]

theorem lookupUser_cons (a : User) (l : UserDb) (i : Uuid) :
    lookupUser (a :: l) i
      = if a.id = i then some a else lookupUser l i := by
  by_cases h : a.id = i <;> simp [lookupUser, List.find?_cons, h]

theorem lookupUser_updUserWhere (db : UserDb) (i : Uuid)
    (g : User → User) (hpres : ∀ u, (g u).id = u.id) :
    lookupUser (updUserWhere db i g) i = (lookupUser db i).map g := by
  induction db with
  | nil => rfl
  | cons a l ih =>
    by_cases h : a.id = i
    · have hgid : (g a).id = i := by rw [hpres, h]
      simp [updUserWhere, lookupUser_cons, h, hgid]
    · simpa [updUserWhere, lookupUser_cons, h] using ih

theorem lookup_setU_updated_at (db : UserDb) (i : Uuid) (v : Timestamp) :
    lookupUser (updUserWhere db i (fun u => { u with updated_at := v })) i
      = (lookupUser db i).map (fun u => { u with updated_at := v }) :=
  lookupUser_updUserWhere db i _ (fun _ => rfl)

theorem userFieldStep_fst_lookup {α : Type} (name : String) (i : Uuid)
    (v? : Option α) (set : α → User → User)
    (hpres : ∀ v u, (set v u).id = u.id)
    (st : UserDb × List String × Bool) (r : User)
    (hr : lookupUser st.1 i = some r) :
    lookupUser (userFieldStep name i v? set st).1 i
      = some (applyOptU v? set r) := by
  obtain ⟨db, ws, u⟩ := st
  cases v? with
  | none => exact hr
  | some v =>
    simp only [userFieldStep, applyOptU]
    rw [lookupUser_updUserWhere _ _ _ (hpres v), hr]
    rfl

theorem userFieldStep_writes {α : Type} (name : String) (i : Uuid)
    (v? : Option α) (set : α → User → User)
    (st : UserDb × List String × Bool) :
    (userFieldStep name i v? set st).2.1
      = st.2.1 ++ (if v?.isSome then [name] else []) := by
  obtain ⟨db, ws, u⟩ := st
  cases v? <;> simp [userFieldStep]

theorem userFieldStep_flag {α : Type} (name : String) (i : Uuid)
    (v? : Option α) (set : α → User → User)
    (st : UserDb × List String × Bool) :
    (userFieldStep name i v? set st).2.2 = (st.2.2 || v?.isSome) := by
  obtain ⟨db, ws, u⟩ := st
  cases v? <;> simp [userFieldStep]

theorem applyOptU_username (v? : Option String) (x : User) :
    applyOptU v? (fun v u => { u with username := v }) x
      = { x with username := v?.getD x.username } := by
  cases v? <;> rfl

theorem applyOptU_email (v? : Option String) (x : User) :
    applyOptU v? (fun v u => { u with email := some v }) x
      = { x with email :=
            (match v? with | some v => some v | none => x.email) } := by
  cases v? <;> rfl

theorem applyOptU_password (v? : Option String) (salt : String) (x : User) :
    applyOptU v? (fun v u => { u with password_hash := encrypt_password v salt }) x
      = { x with password_hash :=
            (match v? with
             | some v => encrypt_password v salt
             | none => x.password_hash) } := by
  cases v? <;> rfl

theorem applyOptU_first_name (v? : Option String) (x : User) :
    applyOptU v? (fun v u => { u with first_name := some v }) x
      = { x with first_name :=
            (match v? with | some v => some v | none => x.first_name) } := by
  cases v? <;> rfl

theorem applyOptU_last_name (v? : Option String) (x : User) :
    applyOptU v? (fun v u => { u with last_name := some v }) x
      = { x with last_name :=
            (match v? with | some v => some v | none => x.last_name) } := by
  cases v? <;> rfl

theorem applyOptU_role (v? : Option Role) (x : User) :
    applyOptU v? (fun v u => { u with role := v }) x
      = { x with role := v?.getD x.role } := by
  cases v? <;> rfl

theorem applyOptU_status (v? : Option Status) (x : User) :
    applyOptU v? (fun v u => { u with status := v }) x
      = { x with status := v?.getD x.status } := by
  cases v? <;> rfl

/-- Full characterization of `UserRepositoryImpl::update` on a store that
holds a row for the patched id. -/
theorem user_update_char (db : UserDb) (p : UpdateUserPayload)
    (salt : String) (now : Timestamp) (r : User)
    (hr : lookupUser db p.id = some r) :
    (UserRepositoryImpl.update db p salt now).outcome
        = (if anySuppliedUser p then .ok p.id else .error .NotModified) ∧
    lookupUser (UserRepositoryImpl.update db p salt now).db p.id
        = some (userApplyPatch r p salt now) ∧
    (UserRepositoryImpl.update db p salt now).writes = userWritesList p := by
  obtain ⟨pid, pu, pe, pp, prl, pst, pf, pl⟩ := p
  dsimp only at hr ⊢
  have h0 : lookupUser ((db, ([] : List String), false) :
      UserDb × List String × Bool).1 pid = some r := hr
  have h1 := userFieldStep_fst_lookup "users.username" pid pu
    (fun v u => { u with username := v }) (fun _ _ => rfl) _ _ h0
  have h2 := userFieldStep_fst_lookup "users.email" pid pe
    (fun v u => { u with email := some v }) (fun _ _ => rfl) _ _ h1
  have h3 := userFieldStep_fst_lookup "users.password_hash" pid pp
    (fun v u => { u with password_hash := encrypt_password v salt })
    (fun _ _ => rfl) _ _ h2
  have h4 := userFieldStep_fst_lookup "users.first_name" pid pf
    (fun v u => { u with first_name := some v }) (fun _ _ => rfl) _ _ h3
  have h5 := userFieldStep_fst_lookup "users.last_name" pid pl
    (fun v u => { u with last_name := some v }) (fun _ _ => rfl) _ _ h4
  have h6 := userFieldStep_fst_lookup "users.role" pid prl
    (fun v u => { u with role := v }) (fun _ _ => rfl) _ _ h5
  have h7 := userFieldStep_fst_lookup "users.status" pid pst
    (fun v u => { u with status := v }) (fun _ _ => rfl) _ _ h6
  have f7 : (userFieldStep "users.status" pid pst
      (fun v u => { u with status := v })
      (userFieldStep "users.role" pid prl
        (fun v u => { u with role := v })
        (userFieldStep "users.last_name" pid pl
          (fun v u => { u with last_name := some v })
          (userFieldStep "users.first_name" pid pf
            (fun v u => { u with first_name := some v })
            (userFieldStep "users.password_hash" pid pp
              (fun v u => { u with password_hash := encrypt_password v salt })
              (userFieldStep "users.email" pid pe
                (fun v u => { u with email := some v })
                (userFieldStep "users.username" pid pu
                  (fun v u => { u with username := v })
                  (db, [], false)))))))).2.2
      = anySuppliedUser ⟨pid, pu, pe, pp, prl, pst, pf, pl⟩ := by
    simp only [userFieldStep_flag, anySuppliedUser, Bool.false_or]
  simp only [UserRepositoryImpl.update]
  refine ⟨?_, ?_, ?_⟩
  · rw [apply_ite (fun x : UpdResult User => x.outcome), f7]
  · rw [apply_ite (fun x : UpdResult User => x.db), f7,
      apply_ite (fun x : UserDb => lookupUser x pid)]
    by_cases hc : anySuppliedUser ⟨pid, pu, pe, pp, prl, pst, pf, pl⟩ = true
    · rw [if_pos hc, lookup_setU_updated_at, h7]
      simp only [Option.map_some', userApplyPatch, applyOptU_username,
        applyOptU_email, applyOptU_password, applyOptU_first_name,
        applyOptU_last_name, applyOptU_role, applyOptU_status, hc, if_true]
    · rw [if_neg hc, h7]
      simp only [Bool.not_eq_true] at hc
      simp only [userApplyPatch, applyOptU_username, applyOptU_email,
        applyOptU_password, applyOptU_first_name, applyOptU_last_name,
        applyOptU_role, applyOptU_status, hc, if_false, Bool.false_eq_true]
  · rw [apply_ite (fun x : UpdResult User => x.writes), f7]
    simp only [userFieldStep_writes, userWritesList, anySuppliedUser,
      List.nil_append, List.append_assoc]
    by_cases hc : anySuppliedUser ⟨pid, pu, pe, pp, prl, pst, pf, pl⟩ = true <;>
      simp_all [anySuppliedUser]

/-! ## Claim theorems -/

/-- C1: for every ticket update whose patch supplies `status = Closed` or
`Cancelled` on an existing ticket, `closed_at` is written to the current
timestamp as an additional write, regardless of whether the previous status
was already Closed/Cancelled (the guard `prev != Closed || prev != Cancelled`
is satisfied by every previous status), and an update whose patch does not
supply `status` never writes `closed_at`. -/
theorem C1_closed_at_stamping (db : TicketDb) (p : UpdateTicketPayload)
    (now : Timestamp) (r : Ticket) (hr : lookupTicket db p.id = some r) :
    (∀ s, p.status = some s →
      (s = TicketStatus.Closed ∨ s = TicketStatus.Cancelled) →
      "tickets.closed_at" ∈ (TicketRepositoryImpl.update db p now).writes ∧
      ∃ r2, lookupTicket (TicketRepositoryImpl.update db p now).db p.id
              = some r2 ∧ r2.closed_at = some now) ∧
    (p.status = none →
      "tickets.closed_at" ∉ (TicketRepositoryImpl.update db p now).writes ∧
      ∃ r2, lookupTicket (TicketRepositoryImpl.update db p now).db p.id
              = some r2 ∧ r2.closed_at = r.closed_at) := by
  obtain ⟨ho, hl, hw⟩ := ticket_update_char db p now r hr
  constructor
  · intro s hs hterm
    refine ⟨?_, _, hl, ?_⟩
    · rw [hw]
      simp [ticketWritesList, hs, hterm]
    · simp [ticketApplyPatch, hs, hterm]
  · intro hs
    refine ⟨?_, _, hl, ?_⟩
    · rw [hw]
      simp [ticketWritesList, hs, anySupplied]
    · simp [ticketApplyPatch, hs]

/-- Witness for C1 at a concrete store: the ticket already has a terminal
status (`Closed`) and a `closed_at`, yet patching `status := Cancelled`
writes `closed_at` again. -/
theorem C1_witness :
    "tickets.closed_at" ∈ (TicketRepositoryImpl.update
        [⟨1, "t", "d", 7, TicketStatus.Closed, none, none, 0, 0, some 5⟩]
        ⟨1, none, none, none, some TicketStatus.Cancelled, none, none⟩
        9).writes :=
  ((C1_closed_at_stamping
      [⟨1, "t", "d", 7, TicketStatus.Closed, none, none, 0, 0, some 5⟩]
      ⟨1, none, none, none, some TicketStatus.Cancelled, none, none⟩ 9
      ⟨1, "t", "d", 7, TicketStatus.Closed, none, none, 0, 0, some 5⟩
      rfl).1 TicketStatus.Cancelled rfl (Or.inr rfl)).1

/-- C2: a partial update of a user or a ticket whose patch supplies no
fields fails with `NotModified` (distinct from `NotFound`), executes zero
UPDATE statements, and leaves the store unchanged. -/
theorem C2_empty_patch (tdb : TicketDb) (tid : Uuid) (tnow : Timestamp)
    (udb : UserDb) (uid : Uuid) (salt : String) (unow : Timestamp) :
    TicketRepositoryImpl.update tdb ⟨tid, none, none, none, none, none, none⟩
        tnow = ⟨.error .NotModified, tdb, []⟩ ∧
    UserRepositoryImpl.update udb
        ⟨uid, none, none, none, none, none, none, none⟩ salt unow
      = ⟨.error .NotModified, udb, []⟩ ∧
    ApiError.NotModified ≠ ApiError.NotFound :=
  ⟨rfl, rfl, by decide⟩

/-- C3: in a partial update of a ticket or a user with at least one field
supplied, each supplied field is overwritten, each absent field keeps its
value, `updated_at` is stamped, and the id is returned. -/
theorem C3_partial_update_frame :
    (∀ (db : TicketDb) (p : UpdateTicketPayload) (now : Timestamp)
        (r : Ticket),
      lookupTicket db p.id = some r → anySupplied p = true →
      (TicketRepositoryImpl.update db p now).outcome = .ok p.id ∧
      ∃ r2, lookupTicket (TicketRepositoryImpl.update db p now).db p.id
              = some r2 ∧
        r2.title = p.title.getD r.title ∧
        r2.description = p.description.getD r.description ∧
        r2.requester = p.requester.getD r.requester ∧
        r2.status = p.status.getD r.status ∧
        r2.closed_by
          = (match p.closed_by with | some v => some v | none => r.closed_by) ∧
        r2.solution
          = (match p.solution with | some v => some v | none => r.solution) ∧
        r2.id = r.id ∧ r2.created_at = r.created_at ∧
        r2.updated_at = now) ∧
    (∀ (db : UserDb) (p : UpdateUserPayload) (salt : String) (now : Timestamp)
        (r : User),
      lookupUser db p.id = some r → anySuppliedUser p = true →
      (UserRepositoryImpl.update db p salt now).outcome = .ok p.id ∧
      ∃ r2, lookupUser (UserRepositoryImpl.update db p salt now).db p.id
              = some r2 ∧
        r2.username = p.username.getD r.username ∧
        r2.email = (match p.email with | some v => some v | none => r.email) ∧
        r2.password_hash = (match p.password with
          | some v => encrypt_password v salt
          | none => r.password_hash) ∧
        r2.first_name = (match p.first_name with
          | some v => some v
          | none => r.first_name) ∧
        r2.last_name = (match p.last_name with
          | some v => some v
          | none => r.last_name) ∧
        r2.role = p.role.getD r.role ∧
        r2.status = p.status.getD r.status ∧
        r2.id = r.id ∧ r2.created_at = r.created_at ∧
        r2.updated_at = now) := by
  constructor
  · intro db p now r hr hc
    obtain ⟨ho, hl, _⟩ := ticket_update_char db p now r hr
    refine ⟨by rw [ho, if_pos hc], _, hl, ?_, ?_, ?_, ?_, ?_, ?_, ?_, ?_, ?_⟩ <;>
      simp [ticketApplyPatch, hc]
  · intro db p salt now r hr hc
    obtain ⟨ho, hl, _⟩ := user_update_char db p salt now r hr
    refine ⟨by rw [ho, if_pos hc], _, hl, ?_, ?_, ?_, ?_, ?_, ?_, ?_, ?_, ?_, ?_⟩ <;>
      simp [userApplyPatch, hc]

/-- Witness for C3 at a concrete ticket and a concrete user update. -/
theorem C3_witness :
    (TicketRepositoryImpl.update
        [⟨1, "Old", "d", 7, TicketStatus.Open, none, none, 0, 0, none⟩]
        ⟨1, some "New", none, none, none, none, none⟩ 9).outcome
      = Except.ok 1 ∧
    (UserRepositoryImpl.update
        [⟨1, "alice", none, StoredHash.hashed "pw" "s", none, none,
          Role.User, Status.Active, 0, 0⟩]
        ⟨1, some "bob", none, none, none, none, none, none⟩ "s2" 9).outcome
      = Except.ok 1 :=
  ⟨(C3_partial_update_frame.1
      [⟨1, "Old", "d", 7, TicketStatus.Open, none, none, 0, 0, none⟩]
      ⟨1, some "New", none, none, none, none, none⟩ 9
      ⟨1, "Old", "d", 7, TicketStatus.Open, none, none, 0, 0, none⟩
      rfl rfl).1,
   (C3_partial_update_frame.2
      [⟨1, "alice", none, StoredHash.hashed "pw" "s", none, none,
        Role.User, Status.Active, 0, 0⟩]
      ⟨1, some "bob", none, none, none, none, none, none⟩ "s2" 9
      ⟨1, "alice", none, StoredHash.hashed "pw" "s", none, none,
        Role.User, Status.Active, 0, 0⟩
      rfl rfl).1⟩

theorem lookupTicket_append_left_none (db l2 : TicketDb) (i : Uuid)
    (h : ∀ t ∈ db, t.id ≠ i) :
    lookupTicket (db ++ l2) i = lookupTicket l2 i := by
  induction db with
  | nil => rfl
  | cons a l ih =>
    have ha : a.id ≠ i := h a (List.mem_cons_self a l)
    rw [List.cons_append, lookupTicket_cons, if_neg ha]
    exact ih (fun t ht => h t (List.mem_cons_of_mem a ht))

/-- C8: `TicketRepositoryImpl::create` on a valid payload builds the row
with `Ticket::new` (status `Open`, no closer, no solution, no `closed_at`),
inserts it under the fresh id, and the id resolves to a row whose title,
description and requester match the input; freshness of the generated id
(`Uuid::now_v7`) is the hypothesis `hfresh`, under which id-uniqueness of
the store is preserved. -/
theorem C8_create_defaults (udb : UserDb) (db : TicketDb)
    (p : CreateTicketPayload) (freshId : Uuid) (now : Timestamp) (rid : Uuid)
    (hres : resolveRequester udb p.requester = some rid)
    (hfresh : ∀ t ∈ db, t.id ≠ freshId) :
    ∃ t, TicketRepositoryImpl.create udb db p freshId now = (.ok t, db ++ [t]) ∧
      t.id = freshId ∧ t.status = TicketStatus.Open ∧ t.closed_by = none ∧
      t.solution = none ∧ t.closed_at = none ∧
      t.title = p.title ∧ t.description = p.description ∧ t.requester = rid ∧
      lookupTicket (db ++ [t]) freshId = some t ∧
      (∃ u ∈ udb, u.id = rid ∧ u.username = p.requester) ∧
      ((db.map (fun t => t.id)).Nodup →
        ((db ++ [t]).map (fun t => t.id)).Nodup) := by
  refine ⟨Ticket.new p.title p.description rid freshId now, ?_, rfl, rfl, rfl,
    rfl, rfl, rfl, rfl, rfl, ?_, ?_, ?_⟩
  · simp only [TicketRepositoryImpl.create, hres]
  · rw [lookupTicket_append_left_none db _ _ hfresh, lookupTicket_cons]
    simp [Ticket.new]
  · obtain ⟨u, hu1, hu2⟩ : ∃ u, lookupUserByName udb p.requester = some u ∧
        u.id = rid := by
      rcases hu : lookupUserByName udb p.requester with _ | u
      · rw [resolveRequester, hu] at hres
        cases hres
      · rw [resolveRequester, hu] at hres
        exact ⟨u, rfl, by simpa using hres⟩
    refine ⟨u, List.mem_of_find?_eq_some hu1, hu2, ?_⟩
    have := List.find?_some hu1
    simpa using this
  · intro hnd
    rw [List.map_append, List.map_singleton]
    rw [List.nodup_append]
    refine ⟨hnd, List.nodup_singleton _, ?_⟩
    intro x hx hx1
    obtain ⟨t, ht, hti⟩ := List.mem_map.mp hx
    have : x = freshId := by simpa using hx1
    exact hfresh t ht (hti.trans this)

/-- Witness for C8: creating a ticket for the registered user `alice`. -/
theorem C8_witness :
    ∃ t, TicketRepositoryImpl.create
        [⟨7, "alice", none, StoredHash.hashed "pw" "s", none, none,
          Role.User, Status.Active, 0, 0⟩]
        [] ⟨"Printer broken", "The printer on floor 2 jams", "alice"⟩ 1 5
      = (.ok t, [] ++ [t]) ∧ t.status = TicketStatus.Open ∧
      t.closed_at = none := by
  obtain ⟨t, h1, _, h3, _, _, h6, _⟩ := C8_create_defaults
    [⟨7, "alice", none, StoredHash.hashed "pw" "s", none, none,
      Role.User, Status.Active, 0, 0⟩]
    [] ⟨"Printer broken", "The printer on floor 2 jams", "alice"⟩ 1 5 7
    rfl (by simp)
  exact ⟨t, h1, h3, h6⟩

/-- C9: `verify_password` never returns `Ok(false)`: every outcome is
`Ok(true)` or the `WrongPassword` error (for malformed stored hashes and for
mismatches alike), so the `if !is_password_correct` branch in `login` is
unreachable. -/
theorem C9_verify_password_never_false (plain : String) (hash : StoredHash) :
    (verify_password plain hash = .ok true ∨
     verify_password plain hash = .error .WrongPassword) ∧
    (∀ b, verify_password plain hash = .ok b → b = true) := by
  cases hash with
  | malformed raw =>
    exact ⟨Or.inr rfl, fun b hb => by cases hb⟩
  | hashed pw salt =>
    by_cases h : plain = pw
    · refine ⟨Or.inl (by simp [verify_password, h]), fun b hb => ?_⟩
      simp [verify_password, h] at hb
      exact hb
    · refine ⟨Or.inr (by simp [verify_password, h]), fun b hb => ?_⟩
      simp [verify_password, h] at hb

/-- Witness for C9 at concrete inputs (matching pair and malformed hash). -/
theorem C9_witness :
    (verify_password "pw" (StoredHash.hashed "pw" "s") = .ok true ∨
     verify_password "pw" (StoredHash.hashed "pw" "s")
        = .error .WrongPassword) ∧
    (verify_password "pw" (StoredHash.malformed "x") = .ok true ∨
     verify_password "pw" (StoredHash.malformed "x")
        = .error .WrongPassword) :=
  ⟨(C9_verify_password_never_false "pw" (StoredHash.hashed "pw" "s")).1,
   (C9_verify_password_never_false "pw" (StoredHash.malformed "x")).1⟩

/-- C10: in `authorize`, the extracted bearer token is `unwrap`ped with no
`None` check: with a present `Authorization` header the middleware panics
exactly when the header splits into fewer than two whitespace-separated
parts (instead of returning `MissingToken` or `InvalidToken`); a missing
header returns `MissingToken`. -/
theorem C10_authorize_unwrap (decode : String → Option Claims) (h : String) :
    (authorize decode (some h) = MWOutcome.panicked
        ↔ (split_whitespace h).length < 2) ∧
    authorize decode none = MWOutcome.errOut (.AuthError .MissingToken) := by
  refine ⟨?_, rfl⟩
  have hiff : (split_whitespace h)[1]? = none
      ↔ (split_whitespace h).length < 2 := by
    rw [List.getElem?_eq_none_iff]
    omega
  rcases hg : (split_whitespace h)[1]? with _ | tok
  · simp only [authorize, hg]
    simp [hiff.mp hg]
  · have hlen : ¬ (split_whitespace h).length < 2 := by
      intro hl
      have := hiff.mpr hl
      rw [hg] at this
      cases this
    simp only [authorize, hg]
    rcases decode tok with _ | c <;> simp [hlen]

/-- Witness for C10: the single-word header value `Bearer` panics. -/
theorem C10_witness :
    authorize (fun _ => none) (some "Bearer") = MWOutcome.panicked :=
  (C10_authorize_unwrap (fun _ => none) "Bearer").1.mpr (by decide)

/-- C4 counterexample: the claim asserts a verified fresh token yields
claims carrying the requested role.  `generate_jwt` takes no role and the
`Claims` struct of `src/models/jwt.rs` has only `iat`, `sub`, `exp`: the
claims yielded for `alice` are one fixed value, so no reading of them can
recover `Admin` for an Admin issuance and `User` for a User issuance —
"claims carrying role r" is false already at `u = "alice"`. -/
theorem C4_counterexample :
    generate_jwt ⟨some "k", some "60"⟩ 0 "alice"
        = GenOutcome.token ⟨"HS256", ⟨0, "alice", 60⟩, ("k", ⟨0, "alice", 60⟩)⟩ ∧
    jwtDecode ⟨"HS256", ⟨0, "alice", 60⟩, ("k", ⟨0, "alice", 60⟩)⟩ "k" 10
        = Except.ok ⟨0, "alice", 60⟩ ∧
    ¬ ∃ f : Claims → String,
        f ⟨0, "alice", 60⟩ = "Admin" ∧ f ⟨0, "alice", 60⟩ = "User" := by
  refine ⟨by decide, rfl, ?_⟩
  rintro ⟨f, h1, h2⟩
  rw [h1] at h2
  exact absurd h2 (by decide)

/-- C4 amended: with a well-formed configuration, verifying a freshly
issued token succeeds and yields claims whose subject is the issuing
username (tokens embed no role claim); verification fails on an expired
token and on any token whose signature or header has been tampered with. -/
theorem C4_token_roundtrip_amended (u secret s : String) (ttl : Int)
    (now now2 : Nat) (hparse : parseI64 s = some ttl) :
    ∃ tok, generate_jwt ⟨some secret, some s⟩ now u = GenOutcome.token tok ∧
      tok.claims.sub = u ∧ tok.claims.iat = now ∧
      tok.claims.exp = usizeCast ((now : Int) + ttl) ∧
      (now2 < tok.claims.exp → jwtDecode tok secret now2 = .ok tok.claims) ∧
      (tok.claims.exp ≤ now2 →
        jwtDecode tok secret now2 = .error .ExpiredSignature) ∧
      (∀ tok2 : Token, tok2.sig ≠ mkSig secret tok2.claims →
        jwtDecode tok2 secret now2 = .error .InvalidSignature ∨
        jwtDecode tok2 secret now2 = .error .InvalidAlgorithm) := by
  refine ⟨⟨"HS256", ⟨now, u, usizeCast ((now : Int) + ttl)⟩,
      mkSig secret ⟨now, u, usizeCast ((now : Int) + ttl)⟩⟩,
    by simp only [generate_jwt, hparse], rfl, rfl, rfl, ?_, ?_, ?_⟩
  · intro hlt
    simp [jwtDecode, Nat.not_le_of_lt hlt]
  · intro hle
    simp [jwtDecode, hle]
  · intro tok2 hsig
    by_cases halg : tok2.alg = "HS256"
    · left
      simp [jwtDecode, halg, hsig]
    · right
      simp [jwtDecode, halg]

/-- Witness for C4 (amended) at a concrete configuration. -/
theorem C4_witness :
    ∃ tok, generate_jwt ⟨some "k", some "60"⟩ 0 "alice"
        = GenOutcome.token tok ∧ tok.claims.sub = "alice" := by
  obtain ⟨tok, h1, h2, _⟩ :=
    C4_token_roundtrip_amended "alice" "k" "60" 60 0 10 (by decide)
  exact ⟨tok, h1, h2⟩

theorem lookupUser_map (db : UserDb) (i : Uuid) (g : User → User)
    (hpres : ∀ u, (g u).id = u.id) :
    lookupUser (db.map g) i = (lookupUser db i).map g := by
  induction db with
  | nil => rfl
  | cons a l ih =>
    by_cases h : a.id = i
    · have hgid : (g a).id = i := by rw [hpres, h]
      simp [lookupUser_cons, h, hgid]
    · have hgid : ¬ (g a).id = i := by rw [hpres]; exact h
      simp only [List.map_cons, lookupUser_cons, if_neg h, if_neg hgid]
      exact ih

/-- C5 counterexample: the `find_user_by_id` handler (built on
`User::find_by_id`, i.e. `SELECT * FROM users`) returns the full `User`
row, whose `password_hash` field is the stored hash — the read path does
return the password hash. -/
theorem C5_counterexample :
    find_user_by_id
        [⟨1, "alice", none, StoredHash.hashed "pw" "salt", none, none,
          Role.User, Status.Active, 0, 0⟩] 1
      = Except.ok ⟨1, "alice", none, StoredHash.hashed "pw" "salt", none,
          none, Role.User, Status.Active, 0, 0⟩ ∧
    (find_user_by_id
        [⟨1, "alice", none, StoredHash.hashed "pw" "salt", none, none,
          Role.User, Status.Active, 0, 0⟩] 1).toOption.map
        (fun u => u.password_hash)
      = some (StoredHash.hashed "pw" "salt") := by
  exact ⟨rfl, rfl⟩

/-- C5 amended: the repository read paths (`UserRepositoryImpl::find_all`
and `find_by_id`) select only non-password columns, so their results are
invariant under any rewriting of the stored password hashes; the HTTP
handlers, built on `User::find_all`/`User::find_by_id` (`SELECT *`),
return the full row including `password_hash`. -/
theorem C5_repo_reads_no_password (db : UserDb) (i : Uuid)
    (f : User → StoredHash) :
    UserRepositoryImpl.find_by_id
        (db.map (fun u => { u with password_hash := f u })) i
      = UserRepositoryImpl.find_by_id db i ∧
    UserRepositoryImpl.find_all
        (db.map (fun u => { u with password_hash := f u }))
      = UserRepositoryImpl.find_all db := by
  constructor
  · simp only [UserRepositoryImpl.find_by_id,
      lookupUser_map db i (fun u => { u with password_hash := f u })
        (fun _ => rfl)]
    cases lookupUser db i <;> rfl
  · simp only [UserRepositoryImpl.find_all, List.map_map]
    exact List.map_congr_left (fun a _ => rfl)

/-- C6: evaluation of `login` at a store holding the Active user `alice`
with password `secret123`: correct credentials give 200 with a token and an
unknown username gives 404, but a wrong password propagates
`ApiError::WrongPassword`, which `IntoResponse` maps to HTTP 400
(`StatusCode::BAD_REQUEST`) — not 401 as the route documents. -/
theorem C6_wrong_password_is_400 :
    login [⟨1, "alice", none, StoredHash.hashed "secret123" "s", none, none,
        Role.User, Status.Active, 0, 0⟩] ⟨some "k", some "3600"⟩ 100
        ⟨"alice", "wrongpass"⟩
      = LoginOutcome.failure ApiError.WrongPassword ∧
    (login [⟨1, "alice", none, StoredHash.hashed "secret123" "s", none, none,
        Role.User, Status.Active, 0, 0⟩] ⟨some "k", some "3600"⟩ 100
        ⟨"alice", "wrongpass"⟩).httpStatus = some 400 ∧
    (login [⟨1, "alice", none, StoredHash.hashed "secret123" "s", none, none,
        Role.User, Status.Active, 0, 0⟩] ⟨some "k", some "3600"⟩ 100
        ⟨"bob", "x"⟩).httpStatus = some 404 ∧
    login [⟨1, "alice", none, StoredHash.hashed "secret123" "s", none, none,
        Role.User, Status.Active, 0, 0⟩] ⟨some "k", some "3600"⟩ 100
        ⟨"alice", "secret123"⟩
      = LoginOutcome.success 200
          ⟨"HS256", ⟨100, "alice", 3700⟩, ("k", ⟨100, "alice", 3700⟩)⟩ ∧
    ApiError.WrongPassword.statusCode ≠ 401 := by
  refine ⟨by decide, by decide, by decide, by decide, by decide⟩

/-- Never produced by `generate_jwt`: the function returns a token or
panics, for every environment. -/
theorem generate_jwt_never_err (env : Env) (now : Nat) (u : String) :
    (generate_jwt env now u).isErr = false := by
  rcases env with ⟨sec, exp⟩
  cases exp with
  | none => rfl
  | some s =>
    simp only [generate_jwt]
    cases parseI64 s with
    | none => rfl
    | some ttl => cases sec with
      | none => rfl
      | some k => rfl

/-- C7 counterexample: with the secret unset (TTL present and valid) or
with a malformed TTL, `generate_jwt` panics via `expect` — it terminates
abnormally instead of failing with `ConfigError` (no error value is ever
returned: the Rust function's type is a plain `String`). -/
theorem C7_counterexample :
    generate_jwt ⟨none, some "3600"⟩ 0 "alice"
        = GenOutcome.panicked "Error reading JWT_SECRET" ∧
    generate_jwt ⟨some "k", some "abc"⟩ 0 "alice"
        = GenOutcome.panicked "Invalid JWT_EXPIRATION_TIME value" ∧
    (generate_jwt ⟨none, some "3600"⟩ 0 "alice").isErr = false :=
  ⟨by decide, by decide, by decide⟩

/-- C7 amended: whenever the signing secret or the TTL environment value is
unset or malformed, token issuance panics (the `expect` calls), and it
never returns an error value of any kind, `ConfigError` included. -/
theorem C7_config_failure_panics (env : Env) (now : Nat) (u : String)
    (h : env.jwt_expiration_time = none ∨
         (∃ s, env.jwt_expiration_time = some s ∧ parseI64 s = none) ∨
         env.jwt_secret = none) :
    (∃ msg, generate_jwt env now u = GenOutcome.panicked msg) ∧
    (generate_jwt env now u).isErr = false := by
  refine ⟨?_, generate_jwt_never_err env now u⟩
  rcases env with ⟨sec, exp⟩
  rcases h with h | ⟨s, hs, hp⟩ | h
  · simp only at h
    subst h
    exact ⟨_, rfl⟩
  · simp only at hs
    subst hs
    simp only [generate_jwt, hp]
    exact ⟨_, rfl⟩
  · simp only at h
    subst h
    cases exp with
    | none => exact ⟨_, rfl⟩
    | some s =>
      simp only [generate_jwt]
      cases parseI64 s with
      | none => exact ⟨_, rfl⟩
      | some ttl => exact ⟨_, rfl⟩

/-- Witness for C7 (amended): unset secret with a valid TTL panics. -/
theorem C7_witness :
    ∃ msg, generate_jwt ⟨none, some "3600"⟩ 0 "alice"
        = GenOutcome.panicked msg :=
  (C7_config_failure_panics ⟨none, some "3600"⟩ 0 "alice"
    (Or.inr (Or.inr rfl))).1

end Tickify
